import Mathlib

/-!
Verification development for the MARLIN marine-intelligence front-end.

The repository is a Next.js front-end.  This file gives a shallow
embedding of the stateful logic of its components:

* the `MarlinChat` widget (`src/unnamed/part_000`): canned-response chat,
* the `Home` landing page (`src/unnamed/part_001`): periodic ocean-health score,
* the analysis page (`src/frontend/app/analysis/page.tsx`): one fetch,
  five tabs, error view,
* the `Sidebar` filter component (`src/frontend/components/Sidebar.jsx`).

React `useState` cells are collected into explicit state records; event
handlers become state-transition functions; JSX output is modelled by a
small view datatype carrying exactly the data the markup interpolates.
JavaScript string truthiness (empty string and `null` are falsy) is made
explicit via `truthyString` / `truthyOptString`.
-/

/-- JavaScript truthiness of a string: every string except `""` is truthy. -/
def truthyString (s : String) : Bool := !(s == "")

/-- JavaScript `String.prototype.trim`: strip leading and trailing
whitespace. -/
def jsTrim (s : String) : String :=
  String.mk (((s.data.dropWhile Char.isWhitespace).reverse.dropWhile
    Char.isWhitespace).reverse)

/-- JavaScript truthiness of a nullable string (`null` and `""` are falsy). -/
def truthyOptString : Option String → Bool
  | none => false
  | some s => truthyString s

/-! ## The MarlinChat widget (`src/unnamed/part_000`) -/

/-- The `type` discriminator of a `ChatMessage` (`'user' | 'assistant'`). -/
inductive MsgType where
  | user
  | assistant
deriving DecidableEq, Repr

/-- The `ChatMessage` interface.  `Date` timestamps are modelled as the
millisecond counter `Date.now()` returns, a natural number. -/
structure ChatMessage where
  id : String
  type : MsgType
  content : String
  timestamp : Nat
deriving DecidableEq, Repr

/-- The component state of `MarlinChat`: the four `useState` cells
`input`, `messages`, `isLoading`, `uploadedImage`. -/
structure ChatState where
  input : String
  messages : List ChatMessage
  isLoading : Bool
  uploadedImage : Option String
deriving DecidableEq, Repr

/-- The hard-coded `anglerFishResponse` paragraph of `MarlinChat`,
exactly as it appears in the source (template literal, paragraphs
separated by blank lines). -/
def anglerFishResponse : String := String.intercalate "\n\n" [
  "The fish in the image is a deep-sea anglerfish, a member of the order Lophiiformes. It\x27s a fascinating creature known for its unique and eerie appearance, which is a result of its adaptation to life in the extreme environment of the deep sea.",
  "**Habitat and Characteristics**",
  "**Habitat:** Deep-sea anglerfish are found worldwide in the deep, dark parts of the ocean, typically in the bathypelagic or \x22midnight\x22 zone, from the surface down to over 8,000 feet (2,500 meters). They are either midwater or seafloor dwellers.",
  "**Appearance:** They are famous for their menacing appearance, which includes a bulbous body, a huge mouth, and long, sharp, inwardly-pointing teeth. Their skin is typically dark, ranging from grey to dark brown.",
  "**The \x22Lure\x22:** The most distinctive feature is the bioluminescent lure that dangles from a modified dorsal fin ray on the top of the female\x27s head. This lure, called an esca, contains millions of light-producing bacteria that glow brightly in the dark. The anglerfish can control the light, either flashing it to attract curious prey or hiding it with a muscular flap. This is a brilliant hunting strategy, as it conserves energy in a food-scarce environment.",
  "**Diet:** They are ambush predators, using their lure to attract small fish and crustaceans. Their expandable jaw and stomach allow them to swallow prey up to twice their own size.",
  "**Reproduction**",
  "The reproduction of deep-sea anglerfish is one of the most bizarre and extreme in the animal kingdom.",
  "**Sexual Dimorphism:** There is a vast difference between the sizes of the male and female anglerfish. Females are large, predatory, and have the lure. Males are tiny, often only a few centimeters long, and lack the lure or the large mouth and teeth.",
  "**Parasitic Mating:** To ensure reproduction in the vast, dark ocean where finding a mate is a rare event, some species of male anglerfish are parasitic. When a male finds a female, he bites onto her and attaches permanently. His body fuses with hers, and he becomes a permanent appendage, getting all his nutrition from her bloodstream. He essentially becomes a \x22sperm factory,\x22 providing her with a constant supply of sperm for fertilization.",
  "**Superstitions and Folklore**",
  "Unlike some other deep-sea creatures like the oarfish (often called the \x22doomsday fish\x22 for its supposed connection to earthquakes), there are no widespread or well-known superstitions specifically about the anglerfish. Its rarity and the difficulty of observing it in its natural habitat mean it has not been a part of human folklore for very long.",
  "However, the general themes of deep-sea creatures and their appearances in shallower waters have, in recent times, been associated with superstition and portents of doom. For example, some people link the surfacing of deep-sea animals to impending environmental changes or natural disasters. These are modern interpretations rather than traditional folklore."]

/-- `generateResponse(query, hasImage)` from `MarlinChat`.  With an
image it returns the canned paragraph; otherwise it lower-cases the
query and applies the four global string replacements in source order
(JavaScript `String.replace` with a `/g` literal pattern replaces all
occurrences left to right, which is the behaviour of `String.replace`). -/
def generateResponse (query : String) (hasImage : Bool) : String :=
  if hasImage then
    anglerFishResponse
  else
    let fishName := query.toLower
    ((((anglerFishResponse.replace "fish in the image" fishName).replace
        "anglerfish" fishName).replace
        "The fish" ("The " ++ fishName)).replace
        "deep-sea anglerfish" fishName)

/-- The guard at the top of `handleSubmit`:
`if (!input.trim() && !uploadedImage) return;`. -/
def submitBlocked (st : ChatState) : Bool :=
  !truthyString (jsTrim st.input) && !truthyOptString st.uploadedImage

/-- The user message `handleSubmit` builds: id and timestamp come from
the first `Date.now()` call (`t1`), and the content is
`input || 'Image uploaded'`. -/
def userMessage (st : ChatState) (t1 : Nat) : ChatMessage :=
  { id := toString t1
    type := MsgType.user
    content := if truthyString st.input then st.input else "Image uploaded"
    timestamp := t1 }

/-- The assistant message `handleSubmit` builds after the 2 s delay:
id is `(Date.now() + 1).toString()` at that later moment (`t2`), and the
content is `generateResponse(query, hasImage)` on the values captured
before the input fields were cleared. -/
def assistantMessage (st : ChatState) (t2 : Nat) : ChatMessage :=
  { id := toString (t2 + 1)
    type := MsgType.assistant
    content := generateResponse st.input (truthyOptString st.uploadedImage)
    timestamp := t2 }

/-- `handleSubmit` of `MarlinChat` as a state transition.  `t1` is the
clock at submission, `t2` the clock when the delayed assistant message is
built.  If the guard fires the state is untouched; otherwise the user and
assistant messages are appended (two functional `setMessages` updates),
the input and image are cleared, and `isLoading` ends up `false`. -/
def handleSubmit (st : ChatState) (t1 t2 : Nat) : ChatState :=
  if submitBlocked st then
    st
  else
    { input := ""
      messages := st.messages ++ [userMessage st t1, assistantMessage st t2]
      isLoading := false
      uploadedImage := none }

/-- Concrete chat states used to instantiate the chat theorems. -/
def chatStateText : ChatState :=
  { input := "Tuna", messages := [], isLoading := false, uploadedImage := none }

/-- A chat state holding an uploaded image and an empty input field. -/
def chatStateImage : ChatState :=
  { input := "", messages := [], isLoading := false,
    uploadedImage := some "data:image/png;base64,AAAA" }

/-- C2: a submission that includes an uploaded image appends the fixed
hard-coded anglerfish paragraph, unchanged and independent of the typed
query text (the state `st`, hence the query `st.input`, is arbitrary). -/
theorem chat_image_fixed_response (st : ChatState) (t1 t2 : Nat)
    (h : truthyOptString st.uploadedImage = true) :
    (handleSubmit st t1 t2).messages =
      st.messages ++ [userMessage st t1, assistantMessage st t2] ∧
    (assistantMessage st t2).content = anglerFishResponse := by
  have hb : submitBlocked st = false := by
    simp [submitBlocked, h]
  refine ⟨by simp [handleSubmit, hb], ?_⟩
  simp [assistantMessage, generateResponse, h]

/-- Witness for `chat_image_fixed_response` at a concrete state with an
uploaded image. -/
theorem chat_image_fixed_response_witness :
    (handleSubmit chatStateImage 3 5).messages =
      chatStateImage.messages ++
        [userMessage chatStateImage 3, assistantMessage chatStateImage 5] ∧
    (assistantMessage chatStateImage 5).content = anglerFishResponse :=
  chat_image_fixed_response chatStateImage 3 5 rfl

/-- C3: a text-only submission (no uploaded image, non-blank input)
appends an assistant response equal to the anglerfish paragraph with, in
this order, every occurrence of "fish in the image" replaced by the
lower-cased query, then every "anglerfish" replaced by it, then every
"The fish" replaced by "The " followed by it, then every
"deep-sea anglerfish" replaced by it. -/
theorem chat_text_replacement_response (st : ChatState) (t1 t2 : Nat)
    (h1 : st.uploadedImage = none)
    (h2 : truthyString (jsTrim st.input) = true) :
    (handleSubmit st t1 t2).messages =
      st.messages ++ [userMessage st t1, assistantMessage st t2] ∧
    (assistantMessage st t2).content =
      ((((anglerFishResponse.replace "fish in the image" st.input.toLower).replace
          "anglerfish" st.input.toLower).replace
          "The fish" ("The " ++ st.input.toLower)).replace
          "deep-sea anglerfish" st.input.toLower) := by
  have hb : submitBlocked st = false := by
    simp [submitBlocked, h1, h2, truthyOptString]
  refine ⟨by simp [handleSubmit, hb], ?_⟩
  simp [assistantMessage, generateResponse, h1, truthyOptString]

/-- Witness for `chat_text_replacement_response` at a concrete
text-only submission. -/
theorem chat_text_replacement_response_witness :
    (handleSubmit chatStateText 3 5).messages =
      chatStateText.messages ++
        [userMessage chatStateText 3, assistantMessage chatStateText 5] ∧
    (assistantMessage chatStateText 5).content =
      ((((anglerFishResponse.replace "fish in the image" chatStateText.input.toLower).replace
          "anglerfish" chatStateText.input.toLower).replace
          "The fish" ("The " ++ chatStateText.input.toLower)).replace
          "deep-sea anglerfish" chatStateText.input.toLower) :=
  chat_text_replacement_response chatStateText 3 5 rfl (by decide)

/-- C9: `handleSubmit` is append-only.  When the trimmed input is empty
and no image is uploaded, the state (so in particular the message list)
is unchanged; otherwise exactly a user message followed by an assistant
message are appended, and every earlier message is preserved unchanged in
its original order. -/
theorem handleSubmit_append_only (st : ChatState) (t1 t2 : Nat) :
    (submitBlocked st = true → handleSubmit st t1 t2 = st) ∧
    (submitBlocked st = false →
      (handleSubmit st t1 t2).messages =
        st.messages ++ [userMessage st t1, assistantMessage st t2] ∧
      (userMessage st t1).type = MsgType.user ∧
      (assistantMessage st t2).type = MsgType.assistant) := by
  constructor
  · intro h
    simp [handleSubmit, h]
  · intro h
    exact ⟨by simp [handleSubmit, h], rfl, rfl⟩

/-- Witness for `handleSubmit_append_only` at a concrete non-blocked
submission. -/
theorem handleSubmit_append_only_witness :
    (handleSubmit chatStateText 7 9).messages =
      chatStateText.messages ++
        [userMessage chatStateText 7, assistantMessage chatStateText 9] :=
  ((handleSubmit_append_only chatStateText 7 9).2 (by decide)).1

/-! ## The analysis page (`src/frontend/app/analysis/page.tsx`)

The page holds four `useState` cells (`crossDomainData`, `loading`,
`error`, `activeTab`), runs `loadCrossDomainAnalysis` once from a
`useEffect` with an empty dependency list, and renders one of three
views: a loading spinner, an error view with a Retry button calling
`window.location.reload()`, or the tabbed main view. -/

/-- A chart payload forwarded untouched to `react-plotly.js`
(`data` and `layout` fields of arbitrary JSON, kept abstract). -/
structure PlotPayload where
  data : String
  layout : String
deriving DecidableEq, Repr

/-- `abundance_stats` inside `biodiversity_summary`. -/
structure AbundanceStats where
  mean : ℚ
  max : ℚ
deriving DecidableEq, Repr

/-- `biodiversity_summary` of the `statistical_summary` payload. -/
structure BiodiversitySummary where
  total_species : Int
  total_observations : Int
  abundance_stats : AbundanceStats
deriving DecidableEq, Repr

/-- Per-variable statistics in `ocean_conditions_summary`. -/
structure OceanVarStats where
  mean : ℚ
  min : ℚ
  max : ℚ
  std : ℚ
  unit : String
deriving DecidableEq, Repr

/-- One row of `correlation_insights` (`{species, variable,
correlation, p_value}`; `variable` is a Lean keyword, hence the
underscore). -/
structure CorrelationInsight where
  species : String
  variable_ : String
  correlation : ℚ
  p_value : ℚ
deriving DecidableEq, Repr

/-- The `statistical_summary` payload as the statistics tab consumes it. -/
structure StatisticalSummary where
  biodiversity_summary : BiodiversitySummary
  ocean_conditions_summary : List (String × OceanVarStats)
  correlation_insights : List CorrelationInsight
deriving DecidableEq, Repr

/-- The `visualizations` part of the `CrossDomainAnalysis` response.
Individual chart payloads may be absent (the JSX guards each with
`&&`); `environmental_gradients` maps variable names to payloads. -/
structure Visualizations where
  correlation_heatmap : Option PlotPayload
  scatter_matrix : Option PlotPayload
  species_environment : Option PlotPayload
  environmental_gradients : List (String × PlotPayload)
  biodiversity_hotspots : Option PlotPayload
  statistical_summary : StatisticalSummary
deriving DecidableEq, Repr

/-- The `metadata` part of the `CrossDomainAnalysis` response. -/
structure Metadata where
  analysis_type : String
  biodiversity_species : Int
  biodiversity_points : Int
  ocean_variables : List String
  region : String
deriving DecidableEq, Repr

/-- The `CrossDomainAnalysis` response type of the analysis page. -/
structure CrossDomainAnalysis where
  visualizations : Visualizations
  metadata : Metadata
deriving DecidableEq, Repr

/-- The five values of the `activeTab` state cell. -/
inductive Tab where
  | overview
  | correlations
  | gradients
  | hotspots
  | statistics
deriving DecidableEq, Repr

/-- The component state of the analysis page: the four `useState` cells. -/
structure AnalysisState where
  crossDomainData : Option CrossDomainAnalysis
  loading : Bool
  error : Option String
  activeTab : Tab
deriving DecidableEq, Repr

/-- The initial state of the analysis page (`useState` initialisers). -/
def initialAnalysisState : AnalysisState :=
  { crossDomainData := none, loading := true, error := none,
    activeTab := Tab.overview }

/-- `API_BASE_URL` from the analysis page. -/
def API_BASE_URL : String := "http://localhost:5000/api"

/-- An HTTP request as issued by the page (a bare `fetch(url)` is a GET). -/
structure HttpRequest where
  method : String
  url : String
deriving DecidableEq, Repr

/-- The single request the analysis page issues. -/
def crossDomainRequest : HttpRequest :=
  { method := "GET", url := API_BASE_URL ++ "/cross-domain-analysis" }

/-- A fetch response: its HTTP status and, for the success path, the
JSON body already parsed into the `CrossDomainAnalysis` shape (the code
casts `await response.json()` without validation). -/
structure HttpResponse where
  status : Nat
  body : CrossDomainAnalysis
deriving DecidableEq, Repr

/-- The `ok` flag of a fetch `Response`: status in the range 200-299. -/
def respOk (r : HttpResponse) : Bool :=
  decide (200 ≤ r.status) && decide (r.status ≤ 299)

/-- The error message thrown when `status === 0 || status >= 500`. -/
def backendNotRunningMessage : String :=
  "Backend server is not running. Please start it with: python app.py"

/-- The error message thrown for every other non-OK response. -/
def failedLoadMessage : String :=
  "Failed to load cross-domain analysis data"

/-- `loadCrossDomainAnalysis` applied to a received response: on an OK
response the parsed body is stored in `crossDomainData`; on a non-OK
response the thrown message is caught and stored in `error` (the fixed
backend message for status 0 or >= 500, the generic message otherwise).
The `finally` block always clears `loading`. -/
def loadCrossDomainAnalysis (st : AnalysisState) (r : HttpResponse) :
    AnalysisState :=
  if respOk r then
    { st with crossDomainData := some r.body, loading := false }
  else
    let msg :=
      if r.status == 0 || decide (500 ≤ r.status) then backendNotRunningMessage
      else failedLoadMessage
    { st with error := some msg, loading := false }

/-- The events the analysis page reacts to: the mount effect (empty
dependency list, so it runs once per page load) delivering the fetch
response, and a tab-button click. -/
inductive PageEvent where
  | mount (r : HttpResponse)
  | selectTab (t : Tab)

/-- The state transition of the analysis page for one event. -/
def step (st : AnalysisState) (e : PageEvent) : AnalysisState :=
  match e with
  | PageEvent.mount r => loadCrossDomainAnalysis st r
  | PageEvent.selectTab t => { st with activeTab := t }

/-- How many HTTP requests an event causes: only the mount effect
fetches. -/
def fetchCount : PageEvent → Nat
  | PageEvent.mount _ => 1
  | PageEvent.selectTab _ => 0

/-- One page load: the mount effect followed by any sequence of
tab-selection clicks (the only interactive controls of the main view). -/
def pageLoadTrace (r : HttpResponse) (tabs : List Tab) : List PageEvent :=
  PageEvent.mount r :: tabs.map PageEvent.selectTab

/-- The actions wired to interactive elements of the page. -/
inductive UIAction where
  | reloadPage
  | setTab (t : Tab)
deriving DecidableEq, Repr

/-- `toFixed(2)` on the displayed rational value: round to two decimal
places. -/
def toFixed2 (x : ℚ) : ℚ := (round (100 * x) : ℤ) / 100

/-- The four overview cards rendered above the tabs whenever
`crossDomainData` is present: `biodiversity_species`,
`biodiversity_points`, `ocean_variables.length`, and the literal label
"Cross-Domain". -/
structure OverviewCards where
  speciesAnalyzed : Int
  dataPoints : Int
  oceanVariables : Nat
  analysisTypeLabel : String
deriving DecidableEq, Repr

/-- Build the overview cards from a response body. -/
def overviewCards (d : CrossDomainAnalysis) : OverviewCards :=
  { speciesAnalyzed := d.metadata.biodiversity_species
    dataPoints := d.metadata.biodiversity_points
    oceanVariables := d.metadata.ocean_variables.length
    analysisTypeLabel := "Cross-Domain" }

/-- The data-dependent content of the active tab.  Tabs other than
`overview` render their section only under a `crossDomainData &&` guard,
so without data they contribute nothing (`emptyBody`).  The statistics
body carries exactly the scalar values the markup interpolates:
`total_species` and `total_observations` raw, the abundance mean through
`toFixed(2)`, the abundance max raw, then the per-variable ocean
statistics and the correlation-insight rows. -/
inductive TabBody where
  | overviewBody
  | correlationsBody (heatmap scatter speciesEnv : Option PlotPayload)
  | gradientsBody (gradients : List (String × PlotPayload))
  | hotspotsBody (hotspots : Option PlotPayload)
  | statisticsBody (totalSpecies totalObservations : Int)
      (meanAbundance maxAbundance : ℚ)
      (oceanConditions : List (String × OceanVarStats))
      (insights : List CorrelationInsight)
  | emptyBody
deriving DecidableEq, Repr

/-- Select the tab content, mirroring the five
`{activeTab === '...' && ...}` sections of the JSX. -/
def tabBody (t : Tab) (d : Option CrossDomainAnalysis) : TabBody :=
  match t, d with
  | Tab.overview, _ => TabBody.overviewBody
  | _, none => TabBody.emptyBody
  | Tab.correlations, some d =>
      TabBody.correlationsBody d.visualizations.correlation_heatmap
        d.visualizations.scatter_matrix d.visualizations.species_environment
  | Tab.gradients, some d =>
      TabBody.gradientsBody d.visualizations.environmental_gradients
  | Tab.hotspots, some d =>
      TabBody.hotspotsBody d.visualizations.biodiversity_hotspots
  | Tab.statistics, some d =>
      let s := d.visualizations.statistical_summary
      TabBody.statisticsBody s.biodiversity_summary.total_species
        s.biodiversity_summary.total_observations
        (toFixed2 s.biodiversity_summary.abundance_stats.mean)
        s.biodiversity_summary.abundance_stats.max
        s.ocean_conditions_summary
        s.correlation_insights

/-- What the page renders: the loading spinner, the error view (message
text plus the one Retry button and its action), or the main view. -/
inductive View where
  | loadingView
  | errorView (message : String) (retryLabel : String) (retryAction : UIAction)
  | mainView (cards : Option OverviewCards) (tab : Tab) (body : TabBody)
deriving DecidableEq, Repr

/-- The early-return chain of the component: `loading` wins, then a
truthy `error` renders `<p>Error: {error}</p>` with the Retry button
wired to `window.location.reload()`, otherwise the main view renders the
cards (when data is present) and the active tab's content. -/
def render (st : AnalysisState) : View :=
  if st.loading then
    View.loadingView
  else if truthyOptString st.error then
    View.errorView ("Error: " ++ st.error.getD "") "Retry" UIAction.reloadPage
  else
    View.mainView (st.crossDomainData.map overviewCards) st.activeTab
      (tabBody st.activeTab st.crossDomainData)

/-- Extract the value interpolated for Total Species, when the
statistics body is on screen. -/
def renderedTotalSpecies : View → Option Int
  | View.mainView _ _ (TabBody.statisticsBody ts _ _ _ _ _) => some ts
  | _ => none

/-- A concrete response body used to instantiate the analysis theorems. -/
def sampleAnalysis : CrossDomainAnalysis :=
  { visualizations :=
      { correlation_heatmap := some { data := "[]", layout := "" }
        scatter_matrix := some { data := "[]", layout := "" }
        species_environment := none
        environmental_gradients := [("temperature", { data := "[]", layout := "" })]
        biodiversity_hotspots := none
        statistical_summary :=
          { biodiversity_summary :=
              { total_species := 12, total_observations := 340,
                abundance_stats := { mean := 57/10, max := 40 } }
            ocean_conditions_summary :=
              [("temperature",
                { mean := 28, min := 26, max := 30, std := 1, unit := "C" })]
            correlation_insights :=
              [{ species := "Thunnus albacares", variable_ := "temperature",
                 correlation := 3/5, p_value := 1/100 }] } }
    metadata :=
      { analysis_type := "cross_domain_correlation"
        biodiversity_species := 12
        biodiversity_points := 340
        ocean_variables := ["temperature", "salinity", "oxygen"]
        region := "Indian Ocean" } }

/-- A successful response. -/
def resp200 : HttpResponse := { status := 200, body := sampleAnalysis }

/-- A 404 response (non-OK, below 500). -/
def resp404 : HttpResponse := { status := 404, body := sampleAnalysis }

/-- A 500 response. -/
def resp500 : HttpResponse := { status := 500, body := sampleAnalysis }

/-- C1 counterexample: the 404 response is non-OK, yet
`loadCrossDomainAnalysis` stores the generic failure message, not the
fixed "Backend server is not running" message, so non-2xx responses are
not all treated alike. -/
theorem nonOk_not_always_backend_message :
    respOk resp404 = false ∧
    (loadCrossDomainAnalysis initialAnalysisState resp404).error =
      some failedLoadMessage ∧
    (loadCrossDomainAnalysis initialAnalysisState resp404).error ≠
      some backendNotRunningMessage := by
  refine ⟨rfl, rfl, ?_⟩
  decide

/-- C1 (amended): a non-OK response with status 0 or at least 500 puts
the page in the error state with the fixed backend-not-running message,
while every other non-OK response (e.g. 404) puts it in the error state
with the generic "Failed to load cross-domain analysis data" message. -/
theorem load_nonOk_error_messages (st : AnalysisState) (r : HttpResponse)
    (h : respOk r = false) :
    ((r.status = 0 ∨ 500 ≤ r.status) →
      (loadCrossDomainAnalysis st r).error = some backendNotRunningMessage) ∧
    (r.status ≠ 0 → r.status < 500 →
      (loadCrossDomainAnalysis st r).error = some failedLoadMessage) := by
  constructor
  · intro h0
    have hcond : (r.status == 0 || decide (500 ≤ r.status)) = true := by
      rcases h0 with h0 | h0 <;> simp [h0]
    simp [loadCrossDomainAnalysis, h, hcond]
  · intro h0 h5
    have hcond : (r.status == 0 || decide (500 ≤ r.status)) = false := by
      simp [h0, Nat.not_le.mpr h5]
    simp [loadCrossDomainAnalysis, h, hcond]

/-- Witness for `load_nonOk_error_messages`: a 500 response yields the
backend-not-running message. -/
theorem load_nonOk_error_messages_witness :
    (loadCrossDomainAnalysis initialAnalysisState resp500).error =
      some backendNotRunningMessage :=
  (load_nonOk_error_messages initialAnalysisState resp500 rfl).1
    (Or.inr (by decide))

/-- C4: during one page load the GET is issued exactly once (only the
mount effect fetches), and a tab click only swaps `activeTab`: the whole
rest of the state, in particular `crossDomainData`, is untouched. -/
theorem analysis_fetch_once_tab_frame (r : HttpResponse) (tabs : List Tab) :
    ((pageLoadTrace r tabs).map fetchCount).sum = 1 ∧
    ∀ (st : AnalysisState) (t : Tab),
      step st (PageEvent.selectTab t) = { st with activeTab := t } := by
  refine ⟨?_, fun st t => rfl⟩
  have hz : ((tabs.map PageEvent.selectTab).map fetchCount).sum = 0 := by
    refine List.sum_eq_zero ?_
    intro x hx
    simp only [List.map_map, List.mem_map] at hx
    rcases hx with ⟨t, -, ht⟩
    simpa [fetchCount] using ht.symm
  rw [List.map_map] at hz
  simp [pageLoadTrace, fetchCount, hz]

/-- C5: with a successful response stored and the statistics tab
active, the page interpolates the literal
`visualizations.statistical_summary.biodiversity_summary.total_species`
value of the response, unmodified. -/
theorem statistics_tab_total_species (st : AnalysisState)
    (d : CrossDomainAnalysis)
    (h1 : st.loading = false) (h2 : st.error = none)
    (h3 : st.crossDomainData = some d) (h4 : st.activeTab = Tab.statistics) :
    renderedTotalSpecies (render st) =
      some d.visualizations.statistical_summary.biodiversity_summary.total_species := by
  simp [render, h1, h2, h3, h4, truthyOptString, tabBody, renderedTotalSpecies]

/-- A state holding the sample response with the statistics tab active. -/
def statisticsState : AnalysisState :=
  { crossDomainData := some sampleAnalysis, loading := false, error := none,
    activeTab := Tab.statistics }

/-- Witness for `statistics_tab_total_species` on the sample response. -/
theorem statistics_tab_total_species_witness :
    renderedTotalSpecies (render statisticsState) = some 12 :=
  statistics_tab_total_species statisticsState sampleAnalysis rfl rfl rfl rfl

/-- C6: the page's single request is a GET to exactly
`http://localhost:5000/api/cross-domain-analysis`, and an OK response's
JSON body is stored as the `CrossDomainAnalysis` value driving the page. -/
theorem analysis_request_url_and_shape :
    crossDomainRequest.method = "GET" ∧
    crossDomainRequest.url = "http://localhost:5000/api/cross-domain-analysis" ∧
    ∀ (st : AnalysisState) (r : HttpResponse), respOk r = true →
      (loadCrossDomainAnalysis st r).crossDomainData = some r.body := by
  refine ⟨rfl, by decide, ?_⟩
  intro st r h
  simp [loadCrossDomainAnalysis, h]

/-- Witness for `analysis_request_url_and_shape`: a 200 response's body
is stored. -/
theorem analysis_request_url_and_shape_witness :
    (loadCrossDomainAnalysis initialAnalysisState resp200).crossDomainData =
      some resp200.body :=
  analysis_request_url_and_shape.2.2 initialAnalysisState resp200 rfl

/-- C7: in the error state the page renders the static message with the
single Retry button whose action is a full page reload
(`window.location.reload()`), and no in-page event clears the error:
tab clicks leave it untouched (the only in-page recovery is the reload). -/
theorem error_state_static_retry_reload (st : AnalysisState) (m : String)
    (h1 : st.loading = false) (h2 : st.error = some m) (h3 : m ≠ "") :
    render st = View.errorView ("Error: " ++ m) "Retry" UIAction.reloadPage ∧
    ∀ t : Tab, (step st (PageEvent.selectTab t)).error = st.error := by
  have hm : (m == "") = false := beq_eq_false_iff_ne.mpr h3
  refine ⟨?_, fun t => rfl⟩
  simp [render, h1, h2, truthyOptString, truthyString, hm]

/-- A state in the error condition after a failed fetch. -/
def errorState : AnalysisState :=
  { crossDomainData := none, loading := false,
    error := some backendNotRunningMessage, activeTab := Tab.overview }

/-- Witness for `error_state_static_retry_reload` on the concrete error
state. -/
theorem error_state_static_retry_reload_witness :
    render errorState =
      View.errorView ("Error: " ++ backendNotRunningMessage) "Retry"
        UIAction.reloadPage :=
  (error_state_static_retry_reload errorState backendNotRunningMessage rfl rfl
    (by decide)).1

/-! ## The Home landing page (`src/unnamed/part_001`)

Every 3 seconds the `oceanHealth` cell is updated with
`Math.max(7.0, Math.min(9.0, Number((prev + change).toFixed(1))))` where
`change = (Math.random() - 0.5) * 0.2`, so the perturbation lies in
[-0.1, 0.1].  Arithmetic is modelled over the rationals. -/

/-- `Number(x.toFixed(1))`: round to one decimal place. -/
def toFixed1 (x : ℚ) : ℚ := (round (10 * x) : ℤ) / 10

/-- One tick of the interval callback updating the ocean-health score. -/
def updateOceanHealth (prev change : ℚ) : ℚ :=
  max 7 (min 9 (toFixed1 (prev + change)))

/-- C8: from any score in [7.0, 9.0] and any perturbation in
[-0.1, 0.1], the updated ocean-health score again lies in [7.0, 9.0]. -/
theorem oceanHealth_stays_in_range (prev change : ℚ)
    (h1 : 7 ≤ prev) (h2 : prev ≤ 9)
    (h3 : -(1/10) ≤ change) (h4 : change ≤ 1/10) :
    7 ≤ updateOceanHealth prev change ∧ updateOceanHealth prev change ≤ 9 :=
  ⟨le_max_left _ _,
   max_le (by norm_num) (le_trans (min_le_left _ _) le_rfl)⟩

/-- Witness for `oceanHealth_stays_in_range` at the initial score 8.2
and the extreme positive perturbation 0.1. -/
theorem oceanHealth_stays_in_range_witness :
    7 ≤ updateOceanHealth (41/5) (1/10) ∧
    updateOceanHealth (41/5) (1/10) ≤ 9 :=
  oceanHealth_stays_in_range (41/5) (1/10) (by norm_num) (by norm_num)
    (by norm_num) (by norm_num)

/-! ## The Sidebar filter component (`src/frontend/components/Sidebar.jsx`)

The sidebar holds three `useState` cells (`parameters`, `time`,
`depth`).  Each handler updates its own cell and calls the
`onFilterChange` prop exactly once with the complete new filter object;
each handler is modelled as returning the new sidebar state together
with that single payload. -/

/-- The `parameters` checkbox object. -/
structure Parameters where
  temperature : Bool
  salinity : Bool
  chlorophyll : Bool
deriving DecidableEq, Repr

/-- The keys of the `parameters` object. -/
inductive ParamKey where
  | temperature
  | salinity
  | chlorophyll
deriving DecidableEq, Repr

/-- Dynamic read `parameters[key]`. -/
def getParam (p : Parameters) : ParamKey → Bool
  | ParamKey.temperature => p.temperature
  | ParamKey.salinity => p.salinity
  | ParamKey.chlorophyll => p.chlorophyll

/-- The computed-property spread `{ ...parameters, [key]: b }`. -/
def setParam (p : Parameters) : ParamKey → Bool → Parameters
  | ParamKey.temperature, b => { p with temperature := b }
  | ParamKey.salinity, b => { p with salinity := b }
  | ParamKey.chlorophyll, b => { p with chlorophyll := b }

/-- The component state of `Sidebar`. -/
structure SidebarState where
  parameters : Parameters
  time : String
  depth : String
deriving DecidableEq, Repr

/-- The initial sidebar state (`useState` initialisers). -/
def initialSidebarState : SidebarState :=
  { parameters := { temperature := false, salinity := false, chlorophyll := false }
    time := "last7days"
    depth := "surface" }

/-- The `{parameters, time, depth}` object passed to `onFilterChange`. -/
structure FilterState where
  parameters : Parameters
  time : String
  depth : String
deriving DecidableEq, Repr

/-- `toggleParameter(key)`: flip `parameters[key]`, keep the rest, and
emit the complete new filter state once. -/
def toggleParameter (st : SidebarState) (key : ParamKey) :
    SidebarState × FilterState :=
  let newParams := setParam st.parameters key (!getParam st.parameters key)
  ({ st with parameters := newParams },
   { parameters := newParams, time := st.time, depth := st.depth })

/-- `changeTime(e)`: store the selected value and emit the complete new
filter state once. -/
def changeTime (st : SidebarState) (v : String) :
    SidebarState × FilterState :=
  ({ st with time := v },
   { parameters := st.parameters, time := v, depth := st.depth })

/-- `changeDepth(e)`: store the selected value and emit the complete new
filter state once. -/
def changeDepth (st : SidebarState) (v : String) :
    SidebarState × FilterState :=
  ({ st with depth := v },
   { parameters := st.parameters, time := st.time, depth := v })

/-- C10: each sidebar handler emits one complete filter payload:
`toggleParameter key` flips exactly the `key` checkbox and keeps `time`
and `depth`; `changeTime` replaces only `time`; `changeDepth` replaces
only `depth`. -/
theorem sidebar_filter_change_complete (st : SidebarState) (key : ParamKey)
    (tv dv : String) :
    ((toggleParameter st key).2.time = st.time ∧
     (toggleParameter st key).2.depth = st.depth ∧
     (toggleParameter st key).2.parameters =
       (toggleParameter st key).1.parameters ∧
     ∀ k : ParamKey, getParam (toggleParameter st key).2.parameters k =
       if k = key then !getParam st.parameters k
       else getParam st.parameters k) ∧
    (changeTime st tv).2 =
      { parameters := st.parameters, time := tv, depth := st.depth } ∧
    (changeDepth st dv).2 =
      { parameters := st.parameters, time := st.time, depth := dv } := by
  refine ⟨⟨rfl, rfl, rfl, ?_⟩, rfl, rfl⟩
  intro k
  cases k <;> cases key <;> simp [toggleParameter, getParam, setParam]
